import Mathlib

/-!
Verification of the BrewKits static site sources: the homepage React
components (feature list, support widget, homepage header), the site
configuration object, and the generated client-side route table.
JSX markup is embedded as a small HTML tree; each component becomes a
pure Lean function from its props to markup.
-/

/-- A rendered markup node: either an element with a tag, an attribute
list, and children, or a text node. -/
inductive Html where
  | element (tag : String) (attrs : List (String × String)) (children : List Html)
  | text (s : String)

/-- Attribute lookup on an element; text nodes have no attributes. -/
def getAttr (h : Html) (k : String) : Option String :=
  match h with
  | .element _ attrs _ => (attrs.find? (fun p => p.1 == k)).map (fun p => p.2)
  | .text _ => none

mutual

/-- All text fragments of a markup tree, in document order. -/
def Html.texts : Html → List String
  | .text s => [s]
  | .element _ _ cs => Html.textsList cs

def Html.textsList : List Html → List String
  | [] => []
  | h :: t => Html.texts h ++ Html.textsList t

end

mutual

/-- All anchor (tag "a") elements of a markup tree, in document order. -/
def Html.anchors : Html → List Html
  | .text _ => []
  | .element t a cs =>
    (if t == "a" then [Html.element t a cs] else []) ++ Html.anchorsList cs

def Html.anchorsList : List Html → List Html
  | [] => []
  | h :: t => Html.anchors h ++ Html.anchorsList t

end

/-! ### Feature list component (src/components/HomepageFeatures/index.tsx) -/

/-- One entry of the feature list: a title, an SVG asset reference, and a
description (the JSX fragment flattened to its text). -/
structure FeatureItem where
  title : String
  svg : String
  description : String
deriving Repr, DecidableEq

/-- The compiled-in feature list: three fixed items. -/
def FeatureList : List FeatureItem :=
  [ { title := "Flutter Libraries",
      svg := "@site/static/img/undraw_docusaurus_mountain.svg",
      description := "Publishing high-quality Flutter packages to pub.dev with best practices, comprehensive documentation, and reliable maintenance." },
    { title := "Kotlin Multiplatform",
      svg := "@site/static/img/undraw_docusaurus_tree.svg",
      description := "Crafting KMP libraries for klibs.io with cross-platform excellence, supporting Android, iOS, and beyond." },
    { title := "Open Source Excellence",
      svg := "@site/static/img/undraw_docusaurus_react.svg",
      description := "Committed to building trusted, well-documented libraries that developers can rely on. Join us in creating better mobile experiences." } ]

/-- The per-item renderer: a third-width column holding a centered icon,
an h3 heading with the title, and a paragraph with the description. -/
def Feature (it : FeatureItem) : Html :=
  .element "div" [("className", "col col--4")]
    [ .element "div" [("className", "text--center")]
        [ .element "svg" [("src", it.svg), ("className", "featureSvg"), ("role", "img")] [] ],
      .element "div" [("className", "text--center padding-horiz--md")]
        [ .element "h3" [] [.text it.title],
          .element "p" [] [.text it.description] ] ]

/-- The feature list component: a section holding a container holding a
row of the rendered feature items. -/
def HomepageFeatures : Html :=
  .element "section" [("className", "features")]
    [ .element "div" [("className", "container")]
        [ .element "div" [("className", "row")] (FeatureList.map Feature) ] ]

/-! ### Support widget (src/components/BuyMeACoffee/index.tsx and the
second, two-link variant of the same component) -/

/-- The single-link variant of the support widget from
src/components/BuyMeACoffee/index.tsx: one external coffee button. -/
def BuyMeACoffee : Html :=
  .element "div" [("className", "coffeeContainer")]
    [ .element "a"
        [ ("href", "https://www.buymeacoffee.com/brewkits"),
          ("target", "_blank"),
          ("rel", "noopener noreferrer"),
          ("className", "coffeeButton") ]
        [ .element "span" [("className", "coffeeIcon")] [.text "☕"],
          .element "span" [("className", "coffeeText")] [.text "Buy Me a Coffee"] ] ]

/-- The two-link variant of the support widget: a coffee button and a
Patreon button, both external. -/
def BuyMeACoffeeSupport : Html :=
  .element "div" [("className", "supportContainer")]
    [ .element "a"
        [ ("href", "https://www.buymeacoffee.com/brewkits"),
          ("target", "_blank"),
          ("rel", "noopener noreferrer"),
          ("className", "coffeeButton") ]
        [ .element "span" [("className", "coffeeIcon")] [.text "☕"],
          .element "span" [("className", "buttonText")] [.text "Buy Me a Coffee"] ],
      .element "a"
        [ ("href", "https://www.patreon.com/brewkits"),
          ("target", "_blank"),
          ("rel", "noopener noreferrer"),
          ("className", "patreonButton") ]
        [ .element "span" [("className", "patreonIcon")] [.text "🎨"],
          .element "span" [("className", "buttonText")] [.text "Support on Patreon"] ] ]

/-! ### Site configuration (docusaurus.config.ts) -/

/-- A navbar entry: either an internal link, an external link, or a
docSidebar item, with its label and position. -/
structure NavbarItem where
  itemType : Option String
  sidebarId : Option String
  toPath : Option String
  href : Option String
  label : String
  position : String
deriving Repr, DecidableEq

/-- One link inside a footer section. -/
structure FooterLinkItem where
  label : String
  toPath : Option String
  href : Option String
deriving Repr, DecidableEq

/-- A titled footer section with its links. -/
structure FooterSection where
  title : String
  items : List FooterLinkItem
deriving Repr, DecidableEq

/-- The footer configuration: style, link sections and the copyright
line. -/
structure Footer where
  style : String
  links : List FooterSection
  copyright : String
deriving Repr, DecidableEq

/-- The navbar configuration. -/
structure Navbar where
  title : String
  logoAlt : String
  logoSrc : String
  items : List NavbarItem
deriving Repr, DecidableEq

/-- The color-mode configuration. -/
structure ColorMode where
  defaultMode : String
  disableSwitch : Bool
  respectPrefersColorScheme : Bool
deriving Repr, DecidableEq

/-- The themeConfig block: share image, navbar, footer, syntax
highlighting themes and color mode. -/
structure ThemeConfig where
  image : String
  navbar : Navbar
  footer : Footer
  prismTheme : String
  prismDarkTheme : String
  additionalLanguages : List String
  colorMode : ColorMode
deriving Repr, DecidableEq

/-- The site configuration object of docusaurus.config.ts. -/
structure SiteConfig where
  title : String
  tagline : String
  favicon : String
  url : String
  baseUrl : String
  organizationName : String
  projectName : String
  deploymentBranch : String
  trailingSlash : Bool
  onBrokenLinks : String
  onBrokenMarkdownLinks : String
  defaultLocale : String
  locales : List String
  themeConfig : ThemeConfig
deriving Repr, DecidableEq

/-- Constructing the configuration object. The copyright string of the
footer interpolates the current year (new Date().getFullYear() in the
source), so construction takes the construction-time year as input;
every other field is a literal. -/
def mkConfig (year : Nat) : SiteConfig :=
  { title := "BrewKits",
    tagline := "Publishing Excellence for Flutter & Kotlin Multiplatform Libraries",
    favicon := "img/icon.png",
    url := "https://brewkits.dev",
    baseUrl := "/",
    organizationName := "brewkits",
    projectName := "brewkits.github.io",
    deploymentBranch := "gh-pages",
    trailingSlash := false,
    onBrokenLinks := "throw",
    onBrokenMarkdownLinks := "warn",
    defaultLocale := "en",
    locales := ["en"],
    themeConfig :=
      { image := "img/banner.png",
        navbar :=
          { title := "BrewKits",
            logoAlt := "BrewKits Logo",
            logoSrc := "img/logo.png",
            items :=
              [ { itemType := some "docSidebar", sidebarId := some "tutorialSidebar",
                  toPath := none, href := none, label := "Docs", position := "left" },
                { itemType := none, sidebarId := none,
                  toPath := some "/blog", href := none, label := "Blog", position := "left" },
                { itemType := none, sidebarId := none,
                  toPath := none, href := some "https://github.com/brewkits",
                  label := "GitHub", position := "right" } ] },
        footer :=
          { style := "dark",
            links :=
              [ { title := "Docs",
                  items := [ { label := "Introduction", toPath := some "/docs/intro", href := none } ] },
                { title := "Community",
                  items := [ { label := "GitHub", toPath := none, href := some "https://github.com/brewkits" } ] } ],
            copyright := "Copyright © " ++ toString year ++ " BrewKits. Built with Docusaurus." },
        prismTheme := "github",
        prismDarkTheme := "dracula",
        additionalLanguages := ["dart", "yaml"],
        colorMode :=
          { defaultMode := "dark", disableSwitch := false,
            respectPrefersColorScheme := true } } }

/-- The same configuration with the footer copyright blanked: everything
outside that one string. -/
def SiteConfig.withoutCopyright (c : SiteConfig) : SiteConfig :=
  { c with themeConfig :=
      { c.themeConfig with footer := { c.themeConfig.footer with copyright := "" } } }

/-! ### Homepage (src/pages/index.tsx) -/

/-- The homepage hero header: an h1 with the site title, a subtitle
paragraph with the tagline, and two navigation links to the
documentation index and the blog index. -/
def HomepageHeader (c : SiteConfig) : Html :=
  .element "header" [("className", "hero hero--primary heroBanner")]
    [ .element "div" [("className", "container")]
        [ .element "h1" [("className", "hero__title")] [.text c.title],
          .element "p" [("className", "hero__subtitle")] [.text c.tagline],
          .element "div" [("className", "buttons")]
            [ .element "a"
                [ ("className", "button button--secondary button--lg"),
                  ("to", "/docs/intro") ]
                [ .text "Explore Our Libraries" ],
              .element "a"
                [ ("className", "button button--primary button--lg"),
                  ("to", "/blog"),
                  ("style", "margin-left:1rem") ]
                [ .text "Read Our Blog" ] ] ] ]

/-- The homepage component: the layout shell wrapping the hero header,
the feature list, and the support section with the support widget. -/
def Home (c : SiteConfig) : Html :=
  .element "Layout"
    [ ("title", "Welcome to " ++ c.title),
      ("description", "Publishing excellence for Flutter and Kotlin Multiplatform libraries. Trusted by developers worldwide.") ]
    [ HomepageHeader c,
      .element "main" []
        [ HomepageFeatures,
          .element "section" [("style", "background:var(--ifm-background-surface-color);padding-bottom:2rem")]
            [ .element "div" [("className", "container")]
                [ .element "h2" [("style", "text-align:center;margin-bottom:1rem")] [.text "Support Our Work"],
                  .element "p" [("style", "text-align:center;margin-bottom:1.5rem;color:var(--ifm-color-emphasis-600)")]
                    [ .text "If you find our libraries useful, consider buying us a coffee to support continued development!" ],
                  BuyMeACoffee ] ] ] ]

/-! ### Route table (build-time generated; not part of the checked-in
sources) -/

/-- Modelled from the spec: one flattened route-table entry, a mapping
from a URL path to an opaque component reference (here its name), with
the exact-match flag. The generated route table itself is a build
artifact and is not among the checked-in sources. -/
structure RouteEntry where
  path : String
  component : String
  exact : Bool
deriving Repr, DecidableEq

/-- Modelled from the spec: a nested route-tree node, a path with its
component reference, the exact flag, and an ordered sequence of child
routes (documentation pages sit under a shared parent route). -/
inductive Route where
  | entry (path component : String) (exact : Bool) (children : List Route)

mutual

/-- Modelled from the spec: flattening the route tree to the sequence of
page entries, replacing a parent node that has children by those
children, in order. -/
def flattenRoute : Route → List RouteEntry
  | .entry p c e children =>
    (if children.isEmpty then [⟨p, c, e⟩] else []) ++ flattenRoutes children

def flattenRoutes : List Route → List RouteEntry
  | [] => []
  | r :: rs => flattenRoute r ++ flattenRoutes rs

end

/-- Modelled from the spec: the generated route tree of this site — the
homepage, the blog index, the documentation pages under a shared parent
route, and the terminal catch-all entry. -/
def routeTree : List Route :=
  [ .entry "/" "Home" true [],
    .entry "/blog" "BlogListPage" true [],
    .entry "/docs" "DocsRoot" false
      [ .entry "/docs/intro" "DocsIntro" true [],
        .entry "/docs/flutter/publishing" "DocsFlutterPublishing" true [],
        .entry "/docs/kmp/getting-started" "DocsKmpGettingStarted" true [] ],
    .entry "*" "NotFound" false [] ]

/-- The flattened route table consulted by the router. -/
def routeTable : List RouteEntry := flattenRoutes routeTree

/-- Modelled from the spec: route resolution — find the most specific
matching entry by exact match first, then fall back to a prefix or
catch-all match; no match at all renders the not-found component. -/
def resolve (table : List RouteEntry) (p : String) : String :=
  match table.find? (fun r => r.exact && r.path == p) with
  | some r => r.component
  | none =>
    match table.find? (fun r => !r.exact && (r.path == "*" || p.startsWith r.path)) with
    | some r => r.component
    | none => "NotFound"

/-! ### Statement apparatus: observers on rendered markup -/

/-- The columns of the single row rendered by the feature list section
(section > container > row > columns). -/
def rowColumns (h : Html) : List Html :=
  match h with
  | .element "section" _ [.element "div" _ [.element "div" _ cols]] => cols
  | _ => []

/-- A column is equally weighted when it carries the one-third width
class used by all three feature columns. -/
def isEqualWidthColumn (h : Html) : Bool :=
  getAttr h "className" == some "col col--4"

/-- A rendered feature column consists of an icon (an svg element in a
centered div), a level-3 heading holding the given title, and a
paragraph holding the given description. -/
def columnShape (h : Html) (title desc : String) : Bool :=
  match h with
  | .element "div" _
      [ .element "div" _ [.element "svg" _ []],
        .element "div" _
          [ .element "h3" _ [.text t],
            .element "p" _ [.text d] ] ] => t == title && d == desc
  | _ => false

/-- The destination of an anchor: its href attribute if present,
otherwise empty. -/
def anchorHref (h : Html) : String := (getAttr h "href").getD ""

/-- The string begins with the scheme "https://", computed on the
underlying character list. -/
def beginsWithHttps (s : String) : Bool := s.data.take 8 == "https://".data

/-! ### Claims -/

/-- Claim C1: the feature list component renders a row of exactly three
equally-weighted columns, one per entry of the compiled-in FeatureList,
each with an icon, a heading carrying the entry's title, and the entry's
description, and every title and description is non-empty. -/
theorem homepageFeatures_three_equal_columns :
    (rowColumns HomepageFeatures).length = 3
  ∧ rowColumns HomepageFeatures = FeatureList.map Feature
  ∧ (∀ col ∈ rowColumns HomepageFeatures, isEqualWidthColumn col = true)
  ∧ ((rowColumns HomepageFeatures).zip FeatureList).all
      (fun p => columnShape p.1 p.2.title p.2.description) = true
  ∧ (∀ it ∈ FeatureList, it.title ≠ "" ∧ it.description ≠ "") :=
  ⟨rfl, rfl, by decide, rfl, by decide⟩

/-- Claim C2: each variant of the support widget renders one or two
anchors, every one of them opening in a new browsing context, and in
each variant at least one anchor's destination begins with https://. -/
theorem buyMeACoffee_external_buttons :
    (1 ≤ BuyMeACoffee.anchors.length ∧ BuyMeACoffee.anchors.length ≤ 2)
  ∧ (∀ a ∈ BuyMeACoffee.anchors, getAttr a "target" = some "_blank")
  ∧ (∃ a ∈ BuyMeACoffee.anchors, beginsWithHttps (anchorHref a) = true)
  ∧ (1 ≤ BuyMeACoffeeSupport.anchors.length ∧ BuyMeACoffeeSupport.anchors.length ≤ 2)
  ∧ (∀ a ∈ BuyMeACoffeeSupport.anchors, getAttr a "target" = some "_blank")
  ∧ (∃ a ∈ BuyMeACoffeeSupport.anchors, beginsWithHttps (anchorHref a) = true) := by
  refine ⟨⟨?_, ?_⟩, ?_, ?_, ⟨?_, ?_⟩, ?_, ?_⟩ <;> decide

/-- Claim C3: for every site configuration, the homepage header contains
the configuration's title and tagline verbatim among its text fragments
and exactly two navigation links, to the documentation index and to the
blog index; in particular both strings of the repository's configuration
appear verbatim. -/
theorem homepageHeader_title_tagline_and_links (c : SiteConfig) :
    c.title ∈ (HomepageHeader c).texts
  ∧ c.tagline ∈ (HomepageHeader c).texts
  ∧ (HomepageHeader c).anchors.length = 2
  ∧ (HomepageHeader c).anchors.map (fun a => getAttr a "to")
      = [some "/docs/intro", some "/blog"]
  ∧ (mkConfig 2025).title = "BrewKits"
  ∧ "BrewKits" ∈ (HomepageHeader (mkConfig 2025)).texts
  ∧ (mkConfig 2025).tagline ∈ (HomepageHeader (mkConfig 2025)).texts := by
  refine ⟨?_, ?_, rfl, rfl, rfl, ?_, ?_⟩
  · show c.title ∈ [c.title, c.tagline, "Explore Our Libraries", "Read Our Blog"]
    exact List.mem_cons_self _ _
  · show c.tagline ∈ [c.title, c.tagline, "Explore Our Libraries", "Read Our Blog"]
    exact List.mem_cons_of_mem _ (List.mem_cons_self _ _)
  · decide
  · decide

/-- Witness for C3 at the repository's configuration. -/
theorem homepageHeader_title_tagline_and_links_witness :
    "BrewKits" ∈ (HomepageHeader (mkConfig 2026)).texts :=
  (homepageHeader_title_tagline_and_links (mkConfig 2026)).1

/-- Claim C4: every component renders deterministically — rendering
twice with identical input yields identical markup; the embedding is by
pure functions, so there is no hidden mutable state to read or write. -/
theorem components_render_deterministically (c : SiteConfig) :
    Home c = Home c
  ∧ HomepageHeader c = HomepageHeader c
  ∧ HomepageFeatures = HomepageFeatures
  ∧ BuyMeACoffee = BuyMeACoffee
  ∧ BuyMeACoffeeSupport = BuyMeACoffeeSupport :=
  ⟨rfl, rfl, rfl, rfl, rfl⟩

/-- Witness for C4 at the repository's configuration. -/
theorem components_render_deterministically_witness :
    Home (mkConfig 2026) = Home (mkConfig 2026) :=
  (components_render_deterministically (mkConfig 2026)).1

/-- Claim C5: the homepage header reads only the title and tagline of
the site configuration — two configurations agreeing on those two fields
render identical headers, whatever their other fields. -/
theorem homepageHeader_reads_only_title_tagline (c1 c2 : SiteConfig)
    (ht : c1.title = c2.title) (hg : c1.tagline = c2.tagline) :
    HomepageHeader c1 = HomepageHeader c2 := by
  unfold HomepageHeader
  rw [ht, hg]

/-- A configuration differing from the constructed one in its URL, its
deployment fields and its construction year, but not in title or
tagline. -/
def cfgVariant : SiteConfig :=
  { mkConfig 2030 with
      url := "https://example.org",
      baseUrl := "/alt/",
      organizationName := "someoneelse",
      onBrokenLinks := "warn" }

/-- Witness for C5: the constructed configuration and the variant agree
on title and tagline, differ elsewhere, and render the same header. -/
theorem homepageHeader_reads_only_title_tagline_witness :
    (mkConfig 2026).title = cfgVariant.title
  ∧ (mkConfig 2026).tagline = cfgVariant.tagline
  ∧ mkConfig 2026 ≠ cfgVariant
  ∧ HomepageHeader (mkConfig 2026) = HomepageHeader cfgVariant :=
  ⟨rfl, rfl, by decide,
    homepageHeader_reads_only_title_tagline (mkConfig 2026) cfgVariant rfl rfl⟩

/-- Counterexample to claim C6 as stated: constructing the site
configuration at two different times yields different objects, because
the footer copyright interpolates the construction-time year. -/
theorem siteConfig_differs_across_years : mkConfig 2024 ≠ mkConfig 2025 := by
  decide

/-- Claim C6 as amended: every field of the site configuration other
than the footer copyright string is identical whenever the object is
constructed, and the copyright string embeds exactly the
construction-time year. -/
theorem siteConfig_static_outside_copyright (y1 y2 : Nat) :
    (mkConfig y1).withoutCopyright = (mkConfig y2).withoutCopyright
  ∧ (mkConfig y1).themeConfig.footer.copyright
      = "Copyright © " ++ toString y1 ++ " BrewKits. Built with Docusaurus." :=
  ⟨rfl, rfl⟩

/-- Witness for the amended C6 at two concrete years. -/
theorem siteConfig_static_outside_copyright_witness :
    (mkConfig 2024).withoutCopyright = (mkConfig 2025).withoutCopyright :=
  (siteConfig_static_outside_copyright 2024 2025).1

/-- Claim C7: resolving the exact path of any entry of the flattened
route table yields that entry's designated component; exact matches are
tried before the prefix/catch-all fallback. -/
theorem resolve_defined_path (r : RouteEntry) (hr : r ∈ routeTable) :
    resolve routeTable r.path = r.component := by
  fin_cases hr <;> rfl

/-- Witness for C7 at the three known paths: the homepage, the
documentation index, and the blog index each resolve to their specific
component. -/
theorem resolve_defined_path_witness :
    resolve routeTable "/" = "Home"
  ∧ resolve routeTable "/docs/intro" = "DocsIntro"
  ∧ resolve routeTable "/blog" = "BlogListPage" :=
  ⟨resolve_defined_path ⟨"/", "Home", true⟩ (by decide),
   resolve_defined_path ⟨"/docs/intro", "DocsIntro", true⟩ (by decide),
   resolve_defined_path ⟨"/blog", "BlogListPage", true⟩ (by decide)⟩

/-- Claim C8: any path that appears nowhere in the route table resolves
to the catch-all not-found component. -/
theorem resolve_undefined_path (p : String)
    (h : p ∉ routeTable.map RouteEntry.path) :
    resolve routeTable p = "NotFound" := by
  have hf : routeTable.find? (fun r => r.exact && r.path == p) = none := by
    rw [List.find?_eq_none]
    intro r hr hpred
    simp only [Bool.and_eq_true, beq_iff_eq] at hpred
    exact h (hpred.2 ▸ List.mem_map_of_mem RouteEntry.path hr)
  unfold resolve
  rw [hf]
  rfl

/-- Witness for C8 at a concrete undefined path. -/
theorem resolve_undefined_path_witness :
    resolve routeTable "/no-such-page" = "NotFound" :=
  resolve_undefined_path "/no-such-page" (by decide)

/-- Claim C9: the flattened route table has pairwise distinct paths, its
last entry is the catch-all, and the catch-all appears nowhere earlier
in the sequence. -/
theorem routeTable_paths_nodup_catchall_last :
    ((flattenRoutes routeTree).map RouteEntry.path).Nodup
  ∧ (flattenRoutes routeTree).getLast? = some ⟨"*", "NotFound", false⟩
  ∧ (∀ r ∈ (flattenRoutes routeTree).dropLast, r.path ≠ "*") := by
  refine ⟨?_, ?_, ?_⟩ <;> decide

/-- Claim C10: every anchor of either support-widget variant that opens
a new browsing context carries the rel attribute denying the opened page
a reference back to the opener. -/
theorem blank_target_anchors_carry_noopener (a : Html)
    (ha : a ∈ BuyMeACoffee.anchors ++ BuyMeACoffeeSupport.anchors)
    (ht : getAttr a "target" = some "_blank") :
    getAttr a "rel" = some "noopener noreferrer" := by
  fin_cases ha <;> rfl

/-- The coffee anchor of the single-link support widget. -/
def coffeeAnchor : Html :=
  .element "a"
    [ ("href", "https://www.buymeacoffee.com/brewkits"),
      ("target", "_blank"),
      ("rel", "noopener noreferrer"),
      ("className", "coffeeButton") ]
    [ .element "span" [("className", "coffeeIcon")] [.text "☕"],
      .element "span" [("className", "coffeeText")] [.text "Buy Me a Coffee"] ]

/-- Witness for C10 at the coffee anchor of the single-link variant. -/
theorem blank_target_anchors_carry_noopener_witness :
    getAttr coffeeAnchor "target" = some "_blank"
  ∧ getAttr coffeeAnchor "rel" = some "noopener noreferrer" :=
  ⟨rfl,
    blank_target_anchors_carry_noopener coffeeAnchor (List.Mem.head _) rfl⟩
